import Mathlib

/-!
Verification development for the SyncMind-Ai probe-orchestration and
deterministic-scoring engine.

The definitions below are a shallow embedding of the JavaScript source:
  * `src/backend/Runners/k6runner.js`       (load probe adapter)
  * `src/backend/Runners/playwrightRunner.js` (browser probe adapter)
  * `src/unnamed/part_001`                  (orchestration route: probe fan-out,
    github summary, sanitizers, AI context, business metrics, live-audit AI)

JavaScript numbers are modelled as exact rationals (`ℚ`); the concrete
values exercised by the claims are exactly representable, so double
rounding does not change any compared value.  `Math.round` and the tie
behaviour of `toFixed` are both round-half-up for the non-negative values
involved, modelled by `jsRound`.  JavaScript string truthiness (empty
string is falsy) is modelled by `jsTruthyStr`.  Decimal rendering of
numbers inside the context string is abstracted by `numToString`; no claim
depends on the rendered digits.
-/

/-- JavaScript `Math.round` (round half toward +infinity), also the
`toFixed` tie rule for non-negative values. -/
def jsRound (q : ℚ) : ℤ := ⌊q + 1/2⌋

/-- `parseFloat(x.toFixed(1))`: round to one decimal place. -/
def round1 (q : ℚ) : ℚ := (jsRound (q * 10) : ℚ) / 10

/-- JavaScript `String.prototype.slice(0, n)`. -/
def jsSlice (s : String) (n : Nat) : String := String.mk (s.data.take n)

/-- JavaScript `String.prototype.trim`. -/
def jsTrim (s : String) : String :=
  String.mk (((s.data.dropWhile Char.isWhitespace).reverse.dropWhile
      Char.isWhitespace).reverse)

/-- `s.trim().length > 0` as a predicate: some character is not whitespace. -/
def nonBlank (s : String) : Bool := s.data.any (fun c => !c.isWhitespace)

/-- Truthiness of an optional JavaScript string (`undefined` and `""` are
falsy). -/
def jsTruthyStr : Option String → Bool
  | some s => s != ""
  | none => false

/-- JavaScript `a || b` on two optional strings, then template-interpolated
(`undefined` prints as "undefined"). -/
def jsOrString (a b : Option String) : String :=
  if jsTruthyStr a then a.getD "" else
    match b with
    | some s => s
    | none => "undefined"

/-- Template interpolation of a number.  Integers render as in JavaScript;
non-integer rendering is abstracted (no claim depends on it). -/
def numToString (q : ℚ) : String :=
  if q.den = 1 then toString q.num else toString q

/-- `v.toFixed(2)` for non-negative `v`. -/
def toFixed2 (q : ℚ) : String :=
  let n := jsRound (q * 100)
  let whole := n / 100
  let frac := (n % 100).natAbs
  toString whole ++ "." ++ (if frac < 10 then "0" else "") ++ toString frac

/-- Sanitizer `safePercent` from `part_001`.  Fields are modelled as exact
rationals, so the `Number.isFinite` guard is always satisfied. -/
def safePercent (v : ℚ) : String := toFixed2 (v * 100)

/-- Sanitizer `safeNumber` from `part_001` (finite branch; `ℚ` values are
always finite, so the "N/A" fallback is unreachable in the model). -/
def safeNumber (v : ℚ) : String := numToString v

/-- `path.join` for the one shape the runner uses. -/
def pathJoin (dir file : String) : String := dir ++ "/" ++ file

/-- `os.tmpdir()` on the reference host. -/
def tmpDir : String := "/tmp"

/-! ## Load probe adapter (`k6runner.js`) -/

/-- Load options accepted by `runK6Test`. -/
structure K6Options where
  vus : Nat
  duration : String
deriving DecidableEq

/-- Destructuring defaults of `runK6Test`: `{ vus = 100, duration = "30s" }`. -/
def k6DefaultOptions : K6Options := ⟨100, "30s"⟩

/-- Options object passed to `child_process.exec`. -/
structure ExecOptions where
  maxBuffer : Option Nat
  timeout : Option Nat
deriving DecidableEq

/-- The exec options of the k6 invocation: `{ maxBuffer: 1024 * 1024 * 10 }`
and nothing else — in particular no `timeout` entry. -/
def k6ExecOptions : ExecOptions := { maxBuffer := some (1024 * 1024 * 10), timeout := none }

/-- One invocation of `runK6Test`: its identity and the millisecond clock
value `Date.now()` observed when it builds its artifact name. -/
structure K6Invocation where
  id : Nat
  clockMs : Nat
deriving DecidableEq

/-- `path.join(os.tmpdir(), ` ++ "`k6-result-${Date.now()}.json`" ++ `)`. -/
def k6ResultFile (clockMs : Nat) : String :=
  pathJoin tmpDir ("k6-result-" ++ toString clockMs ++ ".json")

/-- The artifact path of an invocation depends only on its observed clock. -/
def k6ArtifactPath (inv : K6Invocation) : String := k6ResultFile inv.clockMs

/-! ## Requests and the orchestrator's k6 call (`part_001`) -/

/-- Load parameters a client may carry in the request body (never read by
the route, which destructures only `testURL` and `githubRepo`). -/
structure LoadParams where
  vus : Option Nat
  duration : Option String
deriving DecidableEq

/-- The inbound request body as far as the orchestration reads it, plus any
client-supplied load parameters. -/
structure ProbeRequest where
  testURL : Option String
  githubRepo : Option String
  loadParams : Option LoadParams
deriving DecidableEq

/-- A fully determined call to `runK6Test`. -/
structure K6Call where
  url : String
  options : K6Options
deriving DecidableEq

/-- The k6 invocation the route makes:
`testURL ? runK6Test(testURL, { vus: 200, duration: "5s" }) : null`. -/
def k6CallOf (req : ProbeRequest) : Option K6Call :=
  match req.testURL with
  | some u => if u != "" then some ⟨u, ⟨200, "5s"⟩⟩ else none
  | none => none

/-! ## Repository summary (`part_001`, github block) -/

/-- A detection result with a `present` field. -/
structure PresenceSignal where
  present : Bool
deriving DecidableEq

/-- Repository signals returned by the analyzer (summary block attached by
the route; per the data model the analyzer always supplies one). -/
structure GithubData where
  docker : PresenceSignal
  cicd : PresenceSignal
  kubernetes : PresenceSignal
  hasStartScript : Bool
deriving DecidableEq

/-- The summary block the route computes onto `github.summary`. -/
structure GithubSummary where
  devOpsScore : Nat
  productionReady : Bool
  riskLevel : String
deriving DecidableEq

/-- The route's summary computation: devOpsScore weights, productionReady
conjunction, riskLevel tiering. -/
def githubSummaryOf (g : GithubData) : GithubSummary :=
  let score :=
    (if g.docker.present then 30 else 0) +
    (if g.cicd.present then 30 else 0) +
    (if g.kubernetes.present then 20 else 0) +
    (if g.hasStartScript then 20 else 0)
  { devOpsScore := score
    productionReady := g.hasStartScript && g.docker.present && g.cicd.present
    riskLevel := if score ≥ 70 then "low" else if score ≥ 40 then "medium" else "high" }

/-! ## Browser probe adapter (`playwrightRunner.js`) -/

/-- Result object of `runPlaywrightAudit`.  JavaScript objects carry no
`isSimulated` property on either path; reading an absent property yields a
falsy value, modelled as a `Bool` field that both paths leave `false`.
`loadTimeMs` is present only on the real-audit path. -/
structure BrowserAudit where
  performance : ℚ
  accessibility : ℚ
  bestPractices : ℚ
  seo : ℚ
  interactivity : ℚ
  loadTimeMs : Option ℚ
  isSimulated : Bool
deriving DecidableEq

/-- The simulation-mode mock result (`Math.random()` drawn from a stream of
rationals in `[0,1)`). -/
def mockResult (rand : Nat → ℚ) : BrowserAudit :=
  { performance := 75 + rand 0 * 20
    accessibility := 85 + rand 1 * 10
    bestPractices := 80 + rand 2 * 15
    seo := 90 + rand 3 * 10
    interactivity := 70 + rand 4 * 25
    loadTimeMs := none
    isSimulated := false }

/-- What the in-page evaluation observes about the target document. -/
structure PageData where
  imagesTotal : Nat
  imagesWithAlt : Nat
  hasTitle : Bool
  hasMetaDesc : Bool
  isHttps : Bool
deriving DecidableEq

/-- In-page helper `getScore`. -/
def getScore (b : Bool) : ℚ := if b then 100 else 0

/-- In-page heuristic audit: accessibility, seo, bestPractices (in that
order) before rounding. -/
def auditResults (p : PageData) : ℚ × ℚ × ℚ :=
  ( if p.imagesTotal > 0 then ((p.imagesWithAlt : ℚ) / (p.imagesTotal : ℚ)) * 100 else 100
  , (getScore p.hasTitle + getScore p.hasMetaDesc) / 2
  , (getScore p.isHttps + 100) / 2 )

/-- The `finalResult` object of the successful real-audit path, each score
passed through `Number(x.toFixed(0))`. -/
def realAuditResult (loadTime : ℚ) (p : PageData) : BrowserAudit :=
  let a := auditResults p
  let performanceScore := max 0 (100 - loadTime / 100)
  let interactivityScore := min 100 (performanceScore + 5)
  { performance := (jsRound performanceScore : ℚ)
    accessibility := (jsRound a.1 : ℚ)
    bestPractices := (jsRound a.2.2 : ℚ)
    seo := (jsRound a.2.1 : ℚ)
    interactivity := (jsRound interactivityScore : ℚ)
    loadTimeMs := some loadTime
    isSimulated := false }

/-- Environment of one `runPlaywrightAudit` call: the configuration mode,
the outcome of navigation plus in-page evaluation (load time and page data,
or a thrown exception), and the `Math.random` stream. -/
structure BrowserEnv where
  executionMode : String
  navigation : Except String (ℚ × PageData)
  rand : Nat → ℚ

/-- `runPlaywrightAudit`: the second argument is `forceSimulation`.  In demo
mode or with `forceSimulation` set it returns the mock result; otherwise it
runs the real audit and, on any exception, recurses exactly once with
`forceSimulation = true`. -/
def runPlaywrightAudit (env : BrowserEnv) : Bool → BrowserAudit
  | true => mockResult env.rand
  | false =>
    if env.executionMode = "demo" then mockResult env.rand
    else
      match env.navigation with
      | Except.ok (t, p) => realAuditResult t p
      | Except.error _ => runPlaywrightAudit env true
termination_by b => (if b then 0 else 1 : Nat)
decreasing_by simp

/-! ## Unified metrics and business metrics (`part_001`) -/

/-- Latency summary of the unified metrics. -/
structure Latency where
  avg : ℚ
  p95 : ℚ
deriving DecidableEq

/-- The normalizer's canonical metrics schema, as consumed by the route. -/
structure UnifiedMetrics where
  latency : Latency
  throughput : ℚ
  failureRateUnderTest : ℚ
  serverErrorRate : ℚ
  vus : ℚ
deriving DecidableEq

/-- The `businessMetrics` accumulator object. -/
structure BusinessMetrics where
  conversionLoss : ℚ
  adSpendRisk : ℤ
  stabilityRiskScore : ℚ
  remediations : List String
  collapsePoint : ℤ
deriving DecidableEq

/-- Remediation pushed when `p95 > 500`. -/
def remediationCaching : String := "Enable CDN Edge Caching → -600ms p95 latency"

/-- Remediation pushed when `throughput < 100`. -/
def remediationRedis : String := "Implement Redis Caching → +40% throughput throughput capacity"

/-- Remediation pushed when `serverErrorRate > 0`. -/
def remediationAutoScale : String := "Auto-Scale Infrastructure → Neutralize service disruptions"

/-- Remediation pushed when a repository result is present without CI/CD. -/
def remediationCICD : String := "Setup CI/CD Pipeline → Reduce 3× outage risk during peak traffic"

/-- The route's business-metrics computation: zero-initialised, filled in
when metrics are present, and the CI/CD remediation appended afterwards
whenever a repository result without CI/CD is present (with or without
metrics). -/
def businessMetrics (metrics : Option UnifiedMetrics) (githubResult : Option GithubData) :
    BusinessMetrics :=
  let base : BusinessMetrics :=
    { conversionLoss := 0, adSpendRisk := 0, stabilityRiskScore := 0
      remediations := [], collapsePoint := 0 }
  let withMetrics :=
    match metrics with
    | none => base
    | some m =>
      { conversionLoss := round1 (m.latency.avg / 1000 * 7)
        adSpendRisk := jsRound (m.failureRateUnderTest * m.throughput * 150 * 5)
        stabilityRiskScore :=
          max 0 (100 - m.failureRateUnderTest * 500 - m.latency.p95 / 20)
        collapsePoint :=
          jsRound (m.vus * (if m.failureRateUnderTest > 0.05 then 0.9 else 1.5))
        remediations :=
          (if m.latency.p95 > 500 then [remediationCaching] else []) ++
          (if m.throughput < 100 then [remediationRedis] else []) ++
          (if m.serverErrorRate > 0 then [remediationAutoScale] else []) }
  match githubResult with
  | some g =>
    if !g.cicd.present then
      { withMetrics with remediations := withMetrics.remediations ++ [remediationCICD] }
    else withMetrics
  | none => withMetrics

/-! ## AI context assembly (`part_001`) -/

/-- The first line of the context: "Target under test: " followed by
`testURL || githubRepo`, then a blank line. -/
def contextHeader (testURL githubRepo : Option String) : String :=
  "Target under test: " ++ jsOrString testURL githubRepo ++ "\n\n"

/-- The runtime-metrics section, emitted only when metrics are present. -/
def metricsSection : Option UnifiedMetrics → String
  | none => ""
  | some m =>
    "Runtime Metrics (Observed):\n" ++
    "- Failure Rate: " ++ safePercent m.failureRateUnderTest ++ "%\n" ++
    "- p95 Latency: " ++ safeNumber m.latency.p95 ++ " ms\n" ++
    "- Avg Latency: " ++ safeNumber m.latency.avg ++ " ms\n" ++
    "- Throughput: " ++ safeNumber m.throughput ++ " req/s\n" ++
    "- Server Error Rate (5xx): " ++ safePercent m.serverErrorRate ++ "%\n\n"

/-- The repository-signals section; with no repository result the route
emits an explicit "Not available" placeholder instead of omitting it. -/
def repoSection : Option GithubData → String
  | none => "Repository Signals: Not available (no repository provided)\n\n"
  | some g =>
    "Repository Signals (Static):\n" ++
    "- Docker: " ++ (if g.docker.present then "Detected" else "Not detected") ++ "\n" ++
    "- CI/CD: " ++ (if g.cicd.present then "Detected" else "Not detected") ++ "\n" ++
    "- Kubernetes: " ++ (if g.kubernetes.present then "Detected" else "Not detected") ++ "\n\n"

/-- The browser-audit section, emitted only when a playwright result is
present; the load-time line only when `loadTimeMs` is truthy. -/
def browserSection : Option BrowserAudit → String
  | none => ""
  | some b =>
    "Browser Experience Audit (External):\n" ++
    "- Performance Score: " ++ numToString b.performance ++ "/100\n" ++
    "- Accessibility Score: " ++ numToString b.accessibility ++ "/100\n" ++
    "- Best Practices Score: " ++ numToString b.bestPractices ++ "/100\n" ++
    "- SEO Score: " ++ numToString b.seo ++ "/100\n" ++
    "- Interactivity Score: " ++ numToString b.interactivity ++ "/100\n" ++
    (match b.loadTimeMs with
     | some t => if t != 0 then "- Real Browser Load Time: " ++ numToString t ++ " ms\n" else ""
     | none => "") ++
    "\n"

/-- The full AI context string, assembled in the route's fixed order:
header, runtime metrics, repository signals, browser audit. -/
def buildContext (testURL githubRepo : Option String) (metrics : Option UnifiedMetrics)
    (githubResult : Option GithubData) (playwrightResult : Option BrowserAudit) : String :=
  contextHeader testURL githubRepo ++ metricsSection metrics ++
    repoSection githubResult ++ browserSection playwrightResult

/-- `safeContext` from `runLiveAuditAI`: a non-blank context is truncated to
6000 characters; otherwise a JSON dump of the metrics is used
(`metricsJson` stands for `JSON.stringify(metrics, null, 2)`). -/
def safeContext (ctx : String) (metricsJson : String) : String :=
  if nonBlank ctx then jsSlice ctx 6000 else "Runtime Metrics:\n" ++ metricsJson

/-- The narrative message returned when no metrics were collected. -/
def loadFailedMessage : String :=
  "Load Test Failed: No runtime metrics were collected. The target may be unreachable."

/-- Fallback verdict when the AI returns an empty or non-string response. -/
def emptyResponseVerdict : String :=
  "**SynthMind AI Verdict**\n\nAnalysis completed. Refer to metrics."

/-- Fallback verdict when the AI call throws. -/
def aiFailedVerdict : String := "SynthMind AI could not generate the live audit."

/-- `runLiveAuditAI`: without metrics it returns the load-failed message
without contacting the AI; with metrics it calls the narrative collaborator
on the capped context (`aiService` abstracts `getresponseopenrouter`) and
sanitises the response. -/
def runLiveAuditAI (metrics : Option UnifiedMetrics) (ctx : String)
    (metricsJson : UnifiedMetrics → String)
    (aiService : String → Except String String) : String :=
  match metrics with
  | none => loadFailedMessage
  | some m =>
    match aiService (safeContext ctx (metricsJson m)) with
    | Except.ok resp => if nonBlank resp then jsTrim resp else emptyResponseVerdict
    | Except.error _ => aiFailedVerdict

/-! ## Orchestration (`part_001`, POST route body) -/

/-- The structured result the orchestration produces for a valid request
(persistence, quota accounting and the HTTP envelope are external
collaborators).  `γ` is the opaque chart payload type. -/
structure OrchestrationResult (γ : Type) where
  success : Bool
  metrics : Option UnifiedMetrics
  charts : Option γ
  github : Option (GithubData × GithubSummary)
  browserMetrics : Option BrowserAudit
  businessInsights : BusinessMetrics
  aiMessage : String

/-- The POST route body: validation, `Promise.all` fan-out with per-probe
`catch` converting failures to `null` (`Except.toOption`), metric parsing
and chart building (`parseK6Data` / `buildChartResponse` live in the
external `Loaddata.js` and are taken as parameters), github summary
attachment, context assembly, business metrics, and the live-audit AI.
`none` is the 400 "Provide testURL or githubRepo" rejection. -/
def orchestrate {α γ : Type} (req : ProbeRequest)
    (k6Run : Except String α) (githubRun : Except String GithubData)
    (playwrightRun : Except String BrowserAudit)
    (parseK6Data : α → UnifiedMetrics) (buildChartResponse : UnifiedMetrics → γ)
    (metricsJson : UnifiedMetrics → String)
    (aiService : String → Except String String) : Option (OrchestrationResult γ) :=
  if !jsTruthyStr req.testURL && !jsTruthyStr req.githubRepo then none
  else
    let testResult : Option α :=
      if jsTruthyStr req.testURL then k6Run.toOption else none
    let githubResult : Option GithubData :=
      if jsTruthyStr req.githubRepo then githubRun.toOption else none
    let playwrightResult : Option BrowserAudit :=
      if jsTruthyStr req.testURL then playwrightRun.toOption else none
    let metrics := testResult.map parseK6Data
    let charts := metrics.map buildChartResponse
    let github := githubResult.map (fun g => (g, githubSummaryOf g))
    let ctx := buildContext req.testURL req.githubRepo metrics githubResult playwrightResult
    let business := businessMetrics metrics githubResult
    let aiMsg := runLiveAuditAI metrics ctx metricsJson aiService
    some
      { success := true
        metrics := metrics
        charts := charts
        github := github
        browserMetrics := playwrightResult
        businessInsights := business
        aiMessage := aiMsg }

/-! ## Helper lemmas -/

theorem nonBlank_append_left : ∀ s u : String, nonBlank s = true → nonBlank (s ++ u) = true
  | ⟨a⟩, ⟨b⟩, h => by
    unfold nonBlank at h ⊢
    show (a ++ b).any (fun c => !c.isWhitespace) = true
    rw [List.any_append]
    rw [show (String.mk a).data = a from rfl] at h
    simp [h]

/-! ## Claims -/

/-- C1: for unified metrics with avg latency 1000, p95 600, throughput 50,
failure rate 0.1, server error rate 0.02 and 200 VUs, the business-metrics
computation yields conversion loss 7.0, ad-spend risk 3750, stability risk
score 20, collapse point 180 VUs, and the caching, throughput and
auto-scale remediations in that order. -/
theorem scenario1_businessMetrics :
    businessMetrics (some ⟨⟨1000, 600⟩, 50, 0.1, 0.02, 200⟩) none =
      { conversionLoss := 7, adSpendRisk := 3750, stabilityRiskScore := 20
        remediations := [remediationCaching, remediationRedis, remediationAutoScale]
        collapsePoint := 180 } := by
  norm_num [businessMetrics, round1, jsRound, max_def]

/-- C8: when repository signals are present, the summary block satisfies the
devOpsScore weighting, the productionReady conjunction and the riskLevel
tiering (low iff score ≥ 70, medium iff 40 ≤ score < 70, high otherwise);
in particular docker+kubernetes+start without CI/CD gives score 70, not
production ready, risk "low". -/
theorem githubSummary_formulas (g : GithubData) :
    (githubSummaryOf g).devOpsScore =
        (if g.docker.present then 30 else 0) + (if g.cicd.present then 30 else 0) +
          (if g.kubernetes.present then 20 else 0) + (if g.hasStartScript then 20 else 0) ∧
      (githubSummaryOf g).productionReady =
        (g.hasStartScript && g.docker.present && g.cicd.present) ∧
      ((githubSummaryOf g).riskLevel = "low" ↔ 70 ≤ (githubSummaryOf g).devOpsScore) ∧
      ((githubSummaryOf g).riskLevel = "medium" ↔
        40 ≤ (githubSummaryOf g).devOpsScore ∧ (githubSummaryOf g).devOpsScore < 70) ∧
      ((githubSummaryOf g).riskLevel = "high" ↔ (githubSummaryOf g).devOpsScore < 40) ∧
      githubSummaryOf ⟨⟨true⟩, ⟨false⟩, ⟨true⟩, true⟩ = ⟨70, false, "low"⟩ := by
  obtain ⟨⟨d⟩, ⟨c⟩, ⟨k⟩, s⟩ := g
  cases d <;> cases c <;> cases k <;> cases s <;> decide

/-- C4 counterexample: with metrics absent but a repository result without
CI/CD present, the remediation list is not empty — it contains the CI/CD
pipeline item. -/
theorem businessMetrics_absent_remediation_cex :
    (businessMetrics none (some ⟨⟨false⟩, ⟨false⟩, ⟨false⟩, false⟩)).remediations =
        [remediationCICD] ∧
      (businessMetrics none (some ⟨⟨false⟩, ⟨false⟩, ⟨false⟩, false⟩)).remediations ≠ [] := by
  constructor <;> decide

/-- C4 (amended): when unified metrics are absent, all numeric derived
scores are zero and the remediation list is empty unless a repository
result without CI/CD is present, in which case it is exactly the CI/CD
pipeline item. -/
theorem businessMetrics_absent_amended (gh : Option GithubData) :
    (businessMetrics none gh).conversionLoss = 0 ∧
      (businessMetrics none gh).adSpendRisk = 0 ∧
      (businessMetrics none gh).stabilityRiskScore = 0 ∧
      (businessMetrics none gh).collapsePoint = 0 ∧
      (businessMetrics none gh).remediations =
        (match gh with
         | some g => if !g.cicd.present then [remediationCICD] else []
         | none => []) := by
  rcases gh with _ | ⟨⟨d⟩, ⟨c⟩, ⟨k⟩, s⟩
  · exact ⟨rfl, rfl, rfl, rfl, rfl⟩
  · cases c <;> exact ⟨rfl, rfl, rfl, rfl, rfl⟩

/-- C6: the claim that the temporary-artifact naming is collision-free
across concurrent invocations is false — the name depends only on the
millisecond clock, so two distinct concurrent invocations observing the
same `Date.now()` produce the same path. -/
theorem k6ResultFile_collision :
    ∃ a b : K6Invocation, a ≠ b ∧ k6ArtifactPath a = k6ArtifactPath b ∧
      k6ArtifactPath a = "/tmp/k6-result-1700000000000.json" := by
  refine ⟨⟨0, 1700000000000⟩, ⟨1, 1700000000000⟩, by decide, rfl, by decide⟩

/-- C7: the k6 invocation's exec options carry only a 10 MB output cap and
no `timeout` entry — the invocation is not time-bounded by the requested
duration plus a grace period, contradicting the claimed timeout policy. -/
theorem k6Exec_unbounded_time :
    k6ExecOptions.timeout = none ∧ k6ExecOptions.maxBuffer = some 10485760 := by
  constructor <;> rfl

/-- C10: whenever a target URL is supplied, the route invokes the load probe
with exactly vus = 200 and duration "5s"; the invocation depends on no part
of the request beyond the target URL (so no client-carried load parameter
can influence it), while the adapter's own defaults are vus = 100 and
duration "30s". -/
theorem k6Call_hardcoded_params (req : ProbeRequest) (u : String)
    (h : req.testURL = some u) (hu : u ≠ "") :
    k6CallOf req = some ⟨u, ⟨200, "5s"⟩⟩ ∧
      (∀ req2 : ProbeRequest, req2.testURL = req.testURL → k6CallOf req2 = k6CallOf req) ∧
      k6DefaultOptions = ⟨100, "30s"⟩ := by
  refine ⟨?_, ?_, rfl⟩
  · unfold k6CallOf
    rw [h]
    simp [hu]
  · intro req2 h2
    unfold k6CallOf
    rw [h2]

/-- Witness for C10 at a concrete request that carries its own (ignored)
load parameters. -/
theorem k6Call_hardcoded_params_witness :
    k6CallOf ⟨some "https://example.com", none, some ⟨some 5, some "60s"⟩⟩ =
        some ⟨"https://example.com", ⟨200, "5s"⟩⟩ ∧
      (∀ req2 : ProbeRequest,
          req2.testURL = some "https://example.com" →
          k6CallOf req2 =
            k6CallOf ⟨some "https://example.com", none, some ⟨some 5, some "60s"⟩⟩) ∧
      k6DefaultOptions = ⟨100, "30s"⟩ :=
  k6Call_hardcoded_params ⟨some "https://example.com", none, some ⟨some 5, some "60s"⟩⟩
    "https://example.com" rfl (by decide)

/-- A concrete environment in which the real browser audit throws during
navigation. -/
def envFallback : BrowserEnv :=
  { executionMode := "production"
    navigation := Except.error "net::ERR_NAME_NOT_RESOLVED"
    rand := fun _ => 0 }

/-- C3 counterexample: when navigation throws, the adapter does fall back to
the synthetic mock result, but that result is not flagged as simulated —
the result object carries no truthy simulated marker. -/
theorem playwright_fallback_unflagged_cex :
    runPlaywrightAudit envFallback false = mockResult envFallback.rand ∧
      ¬(runPlaywrightAudit envFallback false).isSimulated = true := by
  have h : runPlaywrightAudit envFallback false = mockResult envFallback.rand := by
    rw [runPlaywrightAudit.eq_2, if_neg (by decide : ¬envFallback.executionMode = "demo")]
    show runPlaywrightAudit envFallback true = mockResult envFallback.rand
    exact runPlaywrightAudit.eq_1 envFallback
  refine ⟨h, ?_⟩
  rw [h]
  show ¬false = true
  decide

/-- C3 (amended): on any exception during navigation or evaluation the
adapter recurses exactly once into the simulation path (which itself
returns the mock result directly, never falling back again), but the
synthetic result it returns carries no simulated flag. -/
theorem playwright_fallback_once_unflagged (env : BrowserEnv) (e : String)
    (hmode : env.executionMode ≠ "demo") (hnav : env.navigation = Except.error e) :
    runPlaywrightAudit env false = runPlaywrightAudit env true ∧
      runPlaywrightAudit env true = mockResult env.rand ∧
      (runPlaywrightAudit env false).isSimulated = false := by
  have h1 : runPlaywrightAudit env false = runPlaywrightAudit env true := by
    rw [runPlaywrightAudit.eq_2, if_neg hmode, hnav]
  have h2 : runPlaywrightAudit env true = mockResult env.rand := runPlaywrightAudit.eq_1 env
  refine ⟨h1, h2, ?_⟩
  rw [h1, h2]
  rfl

/-- Witness for the amended C3 at a concrete failing navigation. -/
theorem playwright_fallback_once_unflagged_witness :
    runPlaywrightAudit envFallback false = runPlaywrightAudit envFallback true ∧
      runPlaywrightAudit envFallback true = mockResult envFallback.rand ∧
      (runPlaywrightAudit envFallback false).isSimulated = false :=
  playwright_fallback_once_unflagged envFallback "net::ERR_NAME_NOT_RESOLVED" (by decide) rfl

/-- C9: on the successful real-audit path the five scores are the rounded
claim formulas — accessibility is the share of images with non-empty alt
(100 with no images), seo the mean of the two binary checks times 100,
bestPractices the mean of the HTTPS check and a constant 100 (hence at
least 50), performance the linear load-time decay, interactivity
performance plus 5 capped at 100 — and the measured load time is carried
in the result. -/
theorem playwright_real_audit_scores (env : BrowserEnv) (t : ℚ) (p : PageData)
    (hmode : env.executionMode ≠ "demo") (hnav : env.navigation = Except.ok (t, p)) :
    (runPlaywrightAudit env false).accessibility =
        (if p.imagesTotal = 0 then 100
         else (jsRound (((p.imagesWithAlt : ℚ) / (p.imagesTotal : ℚ)) * 100) : ℚ)) ∧
      (runPlaywrightAudit env false).seo =
        (jsRound (((if p.hasTitle then (1 : ℚ) else 0) +
            (if p.hasMetaDesc then (1 : ℚ) else 0)) / 2 * 100) : ℚ) ∧
      (runPlaywrightAudit env false).bestPractices =
        (jsRound (((if p.isHttps then (100 : ℚ) else 0) + 100) / 2) : ℚ) ∧
      (50 : ℚ) ≤ (runPlaywrightAudit env false).bestPractices ∧
      (runPlaywrightAudit env false).performance =
        (jsRound (max 0 (100 - t / 100)) : ℚ) ∧
      (runPlaywrightAudit env false).interactivity =
        (jsRound (min 100 (max 0 (100 - t / 100) + 5)) : ℚ) ∧
      (runPlaywrightAudit env false).loadTimeMs = some t := by
  have hr : runPlaywrightAudit env false = realAuditResult t p := by
    rw [runPlaywrightAudit.eq_2, if_neg hmode, hnav]
  rw [hr]
  obtain ⟨it, ia, ht, hm, hs⟩ := p
  refine ⟨?_, ?_, ?_, ?_, rfl, rfl, rfl⟩
  · rcases Nat.eq_zero_or_pos it with h0 | hpos
    · subst h0
      norm_num [realAuditResult, auditResults, jsRound]
    · simp only [realAuditResult, auditResults]
      rw [if_pos hpos, if_neg (Nat.pos_iff_ne_zero.mp hpos)]
  · cases ht <;> cases hm <;> norm_num [realAuditResult, auditResults, getScore, jsRound]
  · cases hs <;> norm_num [realAuditResult, auditResults, getScore, jsRound]
  · cases hs <;> norm_num [realAuditResult, auditResults, getScore, jsRound]

/-- A concrete successful real-audit environment: 1234 ms load time, four
images of which two have alt text, a title, no meta description, HTTPS. -/
def envRealAudit : BrowserEnv :=
  { executionMode := "production"
    navigation := Except.ok (1234, ⟨4, 2, true, false, true⟩)
    rand := fun _ => 0 }

/-- Witness for C9 at the concrete successful audit. -/
theorem playwright_real_audit_scores_witness :
    (runPlaywrightAudit envRealAudit false).accessibility =
        (if (4 : Nat) = 0 then 100
         else (jsRound ((((2 : Nat) : ℚ) / ((4 : Nat) : ℚ)) * 100) : ℚ)) ∧
      (runPlaywrightAudit envRealAudit false).seo =
        (jsRound (((if true then (1 : ℚ) else 0) + (if false then (1 : ℚ) else 0)) / 2 * 100) : ℚ) ∧
      (runPlaywrightAudit envRealAudit false).bestPractices =
        (jsRound (((if true then (100 : ℚ) else 0) + 100) / 2) : ℚ) ∧
      (50 : ℚ) ≤ (runPlaywrightAudit envRealAudit false).bestPractices ∧
      (runPlaywrightAudit envRealAudit false).performance =
        (jsRound (max 0 (100 - (1234 : ℚ) / 100)) : ℚ) ∧
      (runPlaywrightAudit envRealAudit false).interactivity =
        (jsRound (min 100 (max 0 (100 - (1234 : ℚ) / 100) + 5)) : ℚ) ∧
      (runPlaywrightAudit envRealAudit false).loadTimeMs = some 1234 :=
  playwright_real_audit_scores envRealAudit 1234 ⟨4, 2, true, false, true⟩ (by decide) rfl

/-- C2: for every request supplying at least one target, the orchestration
returns a structured result for every combination of probe outcomes — each
probe failure is caught at its boundary — and whenever the load probe
failed, the result's metrics field is absent and the narrative message is
the "no runtime metrics were collected" text. -/
theorem orchestrate_total_loadProbe_failure {α γ : Type} (req : ProbeRequest)
    (k6Run : Except String α) (githubRun : Except String GithubData)
    (playwrightRun : Except String BrowserAudit)
    (parseK6Data : α → UnifiedMetrics) (buildChartResponse : UnifiedMetrics → γ)
    (metricsJson : UnifiedMetrics → String) (aiService : String → Except String String)
    (hvalid : jsTruthyStr req.testURL = true ∨ jsTruthyStr req.githubRepo = true) :
    ∃ r : OrchestrationResult γ,
      orchestrate req k6Run githubRun playwrightRun parseK6Data buildChartResponse
          metricsJson aiService = some r ∧
        ∀ e : String, k6Run = Except.error e →
          r.metrics = none ∧ r.aiMessage = loadFailedMessage := by
  have hcond : (!jsTruthyStr req.testURL && !jsTruthyStr req.githubRepo) = false := by
    rcases hvalid with h | h <;> simp [h]
  unfold orchestrate
  rw [hcond]
  simp only [Bool.false_eq_true, if_false]
  refine ⟨_, rfl, ?_⟩
  intro e he
  subst he
  constructor
  · show (if jsTruthyStr req.testURL then (Except.error e : Except String α).toOption
        else none).map parseK6Data = none
    cases jsTruthyStr req.testURL <;> simp [Except.toOption]
  · show runLiveAuditAI
        ((if jsTruthyStr req.testURL then (Except.error e : Except String α).toOption
          else none).map parseK6Data) _ metricsJson aiService = loadFailedMessage
    cases jsTruthyStr req.testURL <;> simp [Except.toOption, runLiveAuditAI]

/-- Witness for C2: a concrete request whose three probes all fail still
yields a structured result with absent metrics and the load-failed
narrative. -/
theorem orchestrate_total_loadProbe_failure_witness :
    ∃ r : OrchestrationResult Unit,
      orchestrate ⟨some "https://a.io", none, none⟩
          (Except.error "k6 crashed" : Except String Unit) (Except.error "no repo")
          (Except.error "browser down") (fun _ => ⟨⟨0, 0⟩, 0, 0, 0, 0⟩) (fun _ => ())
          (fun _ => "") (fun _ => Except.ok "verdict") = some r ∧
        ∀ e : String, (Except.error "k6 crashed" : Except String Unit) = Except.error e →
          r.metrics = none ∧ r.aiMessage = loadFailedMessage :=
  orchestrate_total_loadProbe_failure ⟨some "https://a.io", none, none⟩
    (Except.error "k6 crashed") (Except.error "no repo") (Except.error "browser down")
    (fun _ => ⟨⟨0, 0⟩, 0, 0, 0, 0⟩) (fun _ => ()) (fun _ => "") (fun _ => Except.ok "verdict")
    (Or.inl (by decide))

/-- C5 counterexample: with no repository data the repository-signals
section is not omitted — the context still contains an explicit
"Not available" placeholder line for it. -/
theorem context_repo_placeholder_cex :
    buildContext (some "https://a.io") none none none none =
        "Target under test: https://a.io\n\nRepository Signals: Not available (no repository provided)\n\n" ∧
      repoSection none ≠ "" := by
  constructor
  · decide
  · decide

/-- C5 (amended): the context is assembled in the fixed order header,
runtime metrics, repository signals, browser audit; the runtime-metrics and
browser-audit sections are omitted entirely when their data is absent,
while the repository-signals section is replaced by an explicit placeholder
line; and the context handed to the narrative collaborator never exceeds
6000 characters. -/
theorem context_order_omission_cap :
    (∀ (t g : Option String) (m : Option UnifiedMetrics) (gh : Option GithubData)
        (b : Option BrowserAudit),
        buildContext t g m gh b =
          contextHeader t g ++ metricsSection m ++ repoSection gh ++ browserSection b) ∧
      metricsSection none = "" ∧
      browserSection none = "" ∧
      repoSection none = "Repository Signals: Not available (no repository provided)\n\n" ∧
      (∀ (t g : Option String) (m : Option UnifiedMetrics) (gh : Option GithubData)
          (b : Option BrowserAudit) (j : String),
          (safeContext (buildContext t g m gh b) j).length ≤ 6000) := by
  refine ⟨fun _ _ _ _ _ => rfl, rfl, rfl, rfl, ?_⟩
  intro t g m gh b j
  have hnb : nonBlank (buildContext t g m gh b) = true := by
    unfold buildContext contextHeader
    apply nonBlank_append_left
    apply nonBlank_append_left
    apply nonBlank_append_left
    apply nonBlank_append_left
    apply nonBlank_append_left
    decide
  have hsc : safeContext (buildContext t g m gh b) j =
      jsSlice (buildContext t g m gh b) 6000 := by
    unfold safeContext
    rw [hnb]
    simp
  rw [hsc]
  show ((buildContext t g m gh b).data.take 6000).length ≤ 6000
  rw [List.length_take]
  exact min_le_left _ _
